import Mathlib

/-!
Shallow embedding of the screenshot-scraper module of the
`groningen-rentals` repository (file `src/unnamed/part_001`, a
TypeScript/Playwright scraper).  JavaScript strings are modelled as
`List Char`; the DOM and the browser are modelled by explicit data
(`ElementData`, `PageEnv`, `BrowserState`); `Date.now()` and
`Math.floor(Math.random() * k)` are modelled as oracle inputs supplied by
the environment (the latter as `Fin k`, since `Math.random()` lies in
`[0, 1)` so the floored product lies in `{0, …, k-1}`).  Fallible
operations (`newPage` and the navigation / selector-wait block) are
modelled by boolean outcome flags in the environment; the per-source
scrape returns `Except Unit (List Property)`, error meaning a propagated
exception.  Browser launch (`initBrowser`) is modelled as always
succeeding; its failure propagates before any behaviour the claims are
about.
-/

/-- JavaScript strings are modelled as lists of characters. -/
abbrev Str := List Char

/-- Whitespace test used by JS `String.prototype.trim` and the regex
class `\s` (restricted to the ASCII whitespace characters, which are the
only ones the claims exercise). -/
def isWS (c : Char) : Bool := c = ' ' || c = '\t' || c = '\n' || c = '\r'

/-- Digit test: the regex class `\d` of the scraper's patterns. -/
def isDigitCh (c : Char) : Bool :=
  c = '0' || c = '1' || c = '2' || c = '3' || c = '4' ||
  c = '5' || c = '6' || c = '7' || c = '8' || c = '9'

/-- Remove trailing whitespace (second half of JS `trim`). -/
def dropTrailingWS (s : Str) : Str := (s.reverse.dropWhile isWS).reverse

/-- JS `String.prototype.trim`: strip leading and trailing whitespace. -/
def trimJS (s : Str) : Str := dropTrailingWS (s.dropWhile isWS)

/-- The decimal digit character for a digit value below ten (used when
rendering numbers into template literals). -/
def digitChar : Nat → Char
  | 0 => '0' | 1 => '1' | 2 => '2' | 3 => '3' | 4 => '4'
  | 5 => '5' | 6 => '6' | 7 => '7' | 8 => '8' | 9 => '9'
  | _ => '*'

/-- Numeric value of a decimal digit character. -/
def digitVal (c : Char) : Nat := c.toNat - 48

/-- Little-endian decimal digits of `n`, with an explicit fuel argument
to keep the recursion structural (`fuel ≥ n` suffices). -/
def natToRev : Nat → Nat → Str
  | 0, _ => []
  | fuel + 1, n => if n = 0 then [] else digitChar (n % 10) :: natToRev fuel (n / 10)

/-- Decimal rendering of a natural number, as produced by a JS template
literal `${n}` for a non-negative integer `n`. -/
def natStr (n : Nat) : Str := if n = 0 then ['0'] else (natToRev (n + 1) n).reverse

/-- Accumulator pass of `Number.parseInt`: consume decimal digits from
the front, stopping at the first non-digit. -/
def parseDigits : Str → Nat → Nat
  | [], acc => acc
  | c :: cs, acc => if isDigitCh c then parseDigits cs (acc * 10 + digitVal c) else acc

/-- `Number.parseInt` on the strings the scraper feeds it (regex capture
groups, which always begin with a decimal digit).  A string with no
leading digit yields `NaN` in JS; that case is unreachable here and is
mapped to `0`. -/
def parseIntJS (s : Str) : Nat :=
  match s with
  | [] => 0
  | c :: _ => if isDigitCh c then parseDigits s 0 else 0

/-- JS `s.replace(c, '')` for a single-character pattern: remove the
first occurrence of `c`, if any. -/
def removeFirst (c : Char) : Str → Str
  | [] => []
  | x :: xs => if x = c then xs else x :: removeFirst c xs

/-- Attempt to match `\d+(?:SEPd+)?` at the start of `u`, returning the
greedy capture: the maximal leading digit run, extended across a single
separator when at least one digit follows it. -/
def matchDigitsSep (sep : Char) (u : Str) : Option Str :=
  let d1 := u.takeWhile isDigitCh
  if d1 = [] then none
  else
    match u.dropWhile isDigitCh with
    | x :: r2 =>
      if x = sep then
        let d2 := r2.takeWhile isDigitCh
        if d2 = [] then some d1 else some (d1 ++ sep :: d2)
      else some d1
    | [] => some d1

/-- First-match capture group of the Pararius price regex
`€?(\d+(?:,\d+)?)` (part_001 line 100): scan left to right; at each
position optionally consume `€`, then require digits, optionally a comma
followed by digits. -/
def parariusCapture : Str → Option Str
  | [] => none
  | c :: cs =>
    match (if c = '€' then matchDigitsSep ',' cs else matchDigitsSep ',' (c :: cs)) with
    | some g => some g
    | none => parariusCapture cs

/-- First-match capture group of the Funda price regex
`€?\s*(\d+(?:\.\d+)?)` (part_001 line 221): like `parariusCapture` but
skipping whitespace after the optional `€` and using `.` as the
separator. -/
def fundaCapture : Str → Option Str
  | [] => none
  | c :: cs =>
    match (if c = '€' then matchDigitsSep '.' (cs.dropWhile isWS)
           else matchDigitsSep '.' ((c :: cs).dropWhile isWS)) with
    | some g => some g
    | none => fundaCapture cs

/-- First-match capture group of the rooms regex `(\d+)` (part_001
lines 102 and 223): the first maximal digit run. -/
def firstDigitRun : Str → Option Str
  | [] => none
  | c :: cs => if isDigitCh c then some ((c :: cs).takeWhile isDigitCh) else firstDigitRun cs

/-- JS `s.split(c)` for a single-character separator. -/
def splitChar (c : Char) : Str → List Str
  | [] => [[]]
  | x :: xs =>
    match splitChar c xs with
    | [] => [[x]]
    | r :: rs => if x = c then [] :: r :: rs else (x :: r) :: rs

/-- JS `x || d` where `x` is a nullable string: `null` and the empty
string are falsy, so both fall back to the default `d`. -/
def jsOrDefault (x : Option Str) (d : Str) : Str :=
  match x with
  | some s => if s = [] then d else s
  | none => d

/-- Interpolation of a nullable string into a JS template literal:
`null` renders as the text "null". -/
def jsToStr (x : Option Str) : Str :=
  match x with
  | some s => s
  | none => "null".toList

/-- JS `['a', 'b', 'c'][j]` for an index known to lie below 3 (the
result of `Math.floor(Math.random() * 3)`). -/
def pick3 (a b c : Str) (j : Fin 3) : Str :=
  if j.val = 0 then a else if j.val = 1 then b else c

/-- The outcomes of the `Math.floor(Math.random() * k)` calls made while
building one property record. -/
structure ElemRand where
  days3 : Fin 3
  days4 : Fin 4
  year70 : Fin 70
  interior3 : Fin 3
  energy3 : Fin 3
  deriving DecidableEq

/-- One listing element, as the scraper observes it through the DOM.
For each optional sub-element, `none` means the selector matched
nothing, `some none` means the element exists but its `textContent`
(resp. `getAttribute('href')`) returned `null`, and `some (some s)`
means it returned the string `s`.  `image` records whether an `img`
sub-element exists, `screenshotOk` whether capturing it would succeed,
and `procError` whether an unexpected exception interrupts the
processing of this element before its record is appended (the per-element
`catch`, part_001 lines 156-158 and 274-276). -/
structure ElementData where
  title : Option (Option Str)
  price : Option (Option Str)
  location : Option (Option Str)
  size : Option (Option Str)
  rooms : Option (Option Str)
  link : Option (Option Str)
  image : Bool
  screenshotOk : Bool
  procError : Bool
  deriving DecidableEq

/-- The normalized output record (`Property` of `./api` plus the
`screenshotPath` extension, part_001 lines 6-8). -/
structure Property where
  id : Str
  title : Str
  price : Nat
  location : Str
  size : Str
  rooms : Nat
  source : Str
  sourceUrl : Str
  listedDays : Nat
  image : Str
  images : List Str
  description : Str
  type : Str
  available : Str
  realEstateAgent : Str
  neighborhood : Str
  buildYear : Str
  interior : Str
  fullDescription : Str
  features : List Str
  energyLabel : Str
  deposit : Nat
  screenshotPath : Str
  deriving DecidableEq

/-- Everything one per-source scrape observes from the outside world:
whether `newPage` succeeds (its failure is NOT caught by the source's
`try` and propagates), whether navigation / cookie handling /
`waitForSelector` all succeed (their failure IS caught at part_001
lines 164-169 and 282-287), the listing elements found, and the oracle
values of `Date.now()` (separately for the screenshot filename and the
record id, which are distinct calls) and of the random draws at each
element index. -/
structure PageEnv where
  newPageOk : Bool
  navOk : Bool
  elements : List ElementData
  nowFile : Nat → Nat
  nowId : Nat → Nat
  rand : Nat → ElemRand

/-- The scraper's only persistent state: whether a browser session is
open (part_001 line 11). -/
structure BrowserState where
  browser : Bool
  deriving DecidableEq

/-- Operation `initBrowser` (part_001 lines 13-26): launch a session if
none is open; afterwards one is open. -/
def initBrowser (_ : BrowserState) : BrowserState := ⟨true⟩

/-- Operation `closeBrowser` (part_001 lines 28-33): close the session
if one is open, else do nothing; afterwards none is open. -/
def closeBrowser (_ : BrowserState) : BrowserState := ⟨false⟩

/-- The `title` local of the Pararius loop (part_001 line 92): default
`Property ${i + 1}` when the selector matched nothing, else the
nullable `textContent`. -/
def parariusTitleRaw (i : Nat) (e : ElementData) : Option Str :=
  match e.title with
  | none => some ("Property ".toList ++ natStr (i + 1))
  | some t => t

/-- The `priceText` local (part_001 line 93): default `'0'`. -/
def parariusPriceRaw (e : ElementData) : Option Str :=
  match e.price with
  | none => some "0".toList
  | some t => t

/-- The `location` local (part_001 line 94): default `'Groningen'`. -/
def parariusLocationRaw (e : ElementData) : Option Str :=
  match e.location with
  | none => some "Groningen".toList
  | some t => t

/-- The `sizeText` local (part_001 line 95): default `'50m²'`. -/
def parariusSizeRaw (e : ElementData) : Option Str :=
  match e.size with
  | none => some "50m²".toList
  | some t => t

/-- The `roomsText` local (part_001 line 96): default `'2'`. -/
def parariusRoomsRaw (e : ElementData) : Option Str :=
  match e.rooms with
  | none => some "2".toList
  | some t => t

/-- The `propertyUrl` local (part_001 line 97): default `''` when there
is no link element, else the nullable `href` attribute. -/
def parariusUrlRaw (e : ElementData) : Option Str :=
  match e.link with
  | none => some []
  | some a => a

/-- Pararius price parsing step (part_001 lines 100-101): first regex
match of `€?(\d+(?:,\d+)?)`, strip the comma, `parseInt`; `0` when the
regex does not match. -/
def parariusParsePrice (s : Str) : Nat :=
  match parariusCapture s with
  | none => 0
  | some g => parseIntJS (removeFirst ',' g)

/-- Funda price parsing step (part_001 lines 221-222): first regex
match of `€?\s*(\d+(?:\.\d+)?)`, strip the dot, `parseInt`; `0` when the
regex does not match. -/
def fundaParsePrice (s : Str) : Nat :=
  match fundaCapture s with
  | none => 0
  | some g => parseIntJS (removeFirst '.' g)

/-- The `price` local (part_001 line 101 resp. 222): `0` when
`priceText` is `null` (the optional chain yields `undefined`). -/
def priceValOf (parse : Str → Nat) (t : Option Str) : Nat :=
  match t with
  | none => 0
  | some s => parse s

/-- The `rooms` local (part_001 lines 102-103 and 223-224): first digit
run of the rooms text, parsed; `2` when the text is `null` or has no
digits. -/
def parseRoomsVal (t : Option Str) : Nat :=
  match t with
  | none => 2
  | some s =>
    match firstDigitRun s with
    | none => 2
    | some g => parseIntJS g

/-- Pararius `price` local value for an element. -/
def parariusPriceVal (e : ElementData) : Nat :=
  priceValOf parariusParsePrice (parariusPriceRaw e)

/-- Pararius `rooms` local value for an element. -/
def parariusRoomsVal (e : ElementData) : Nat :=
  parseRoomsVal (parariusRoomsRaw e)

/-- The `screenshotPath` local of the Pararius loop (part_001
lines 106-123): set to `/property-images/pararius-${i+1}-${now}.png`
when an image element exists and its capture succeeds, and left `''`
when there is no image element or the capture throws (the inner
`catch`). -/
def parariusShot (nf i : Nat) (e : ElementData) : Str :=
  if e.image && e.screenshotOk then
    "/property-images/pararius-".toList ++ natStr (i + 1) ++ ('-' :: natStr nf) ++ ".png".toList
  else []

/-- The `type` field expression (part_001 lines 138 and 258):
`rooms === 1 ? 'Studio' : rooms <= 2 ? 'Apartment' : 'House'`. -/
def propertyType (n : Nat) : Str :=
  if n = 1 then "Studio".toList else if n ≤ 2 then "Apartment".toList else "House".toList

/-- The `sourceUrl` field expression (part_001 lines 133 and 253):
keep the url when it starts with `http`, else prepend the source's base
url; a `null` url interpolates as the text "null". -/
def resolveUrl (base : Str) (u : Option Str) : Str :=
  match u with
  | some s => if "http".toList.isPrefixOf s then s else base ++ s
  | none => base ++ "null".toList

/-- The Pararius `neighborhood` field expression (part_001 line 141):
`location?.split('(')[1]?.replace(')', '') || 'Centrum'`. -/
def parariusNbhd (loc : Option Str) : Str :=
  match loc with
  | none => "Centrum".toList
  | some l =>
    match (splitChar '(' l)[1]? with
    | none => "Centrum".toList
    | some p =>
      let q := removeFirst ')' p
      if q = [] then "Centrum".toList else q

/-- The record id of the Pararius loop (part_001 line 126):
`pararius-screenshot-${Date.now()}-${i}`. -/
def parariusId (t i : Nat) : Str :=
  "pararius-screenshot-".toList ++ natStr t ++ ('-' :: natStr i)

/-- The record id of the Funda loop (part_001 line 246):
`funda-screenshot-${Date.now()}-${i}`. -/
def fundaId (t i : Nat) : Str :=
  "funda-screenshot-".toList ++ natStr t ++ ('-' :: natStr i)

/-- The property record assembled by one iteration of the Pararius loop
(part_001 lines 125-149), given the `Date.now()` oracle for the
screenshot filename (`nf`) and for the id (`ni`), the random draws, the
element index `i` and the element data. -/
def parariusElementRecord (nf ni : Nat) (rnd : ElemRand) (i : Nat) (e : ElementData) : Property :=
  let title := parariusTitleRaw i e
  let location := parariusLocationRaw e
  let price := parariusPriceVal e
  let rooms := parariusRoomsVal e
  let shot := parariusShot nf i e
  { id := parariusId ni i
    title := jsOrDefault (title.map trimJS) ("Pararius Property ".toList ++ natStr (i + 1))
    price := price
    location := jsOrDefault (location.map trimJS) "Groningen".toList
    size := jsOrDefault ((parariusSizeRaw e).map trimJS) "50m²".toList
    rooms := rooms
    source := "Pararius".toList
    sourceUrl := resolveUrl "https://pararius.com".toList (parariusUrlRaw e)
    listedDays := rnd.days3.val
    image := shot
    images := if shot = [] then [] else [shot]
    description := jsToStr title ++ " in ".toList ++ jsToStr location
      ++ ". Professional real estate listing from Pararius.".toList
    type := propertyType rooms
    available := "Available now".toList
    realEstateAgent := "Pararius Partner".toList
    neighborhood := parariusNbhd location
    buildYear := natStr (1950 + rnd.year70.val)
    interior := pick3 "Furnished".toList "Upholstered".toList "Shell".toList rnd.interior3
    fullDescription := "Beautiful property in ".toList ++ jsToStr location
      ++ ". Contact agent for viewing and more details.".toList
    features := ["Kitchen".toList, "Bathroom".toList, "Internet".toList]
    energyLabel := pick3 "A".toList "B".toList "C".toList rnd.energy3
    deposit := if price > 0 then price * 2 else 1000
    screenshotPath := shot }

/-- The `title` local of the Funda loop (part_001 line 214): default
`Funda Property ${i + 1}`. -/
def fundaTitleRaw (i : Nat) (e : ElementData) : Option Str :=
  match e.title with
  | none => some ("Funda Property ".toList ++ natStr (i + 1))
  | some t => t

/-- Funda `price` local value for an element (defaults shared with the
Pararius loop: `priceText` defaults to `'0'`). -/
def fundaPriceVal (e : ElementData) : Nat :=
  priceValOf fundaParsePrice (parariusPriceRaw e)

/-- The `screenshotPath` local of the Funda loop (part_001
lines 227-243). -/
def fundaShot (nf i : Nat) (e : ElementData) : Str :=
  if e.image && e.screenshotOk then
    "/property-images/funda-".toList ++ natStr (i + 1) ++ ('-' :: natStr nf) ++ ".png".toList
  else []

/-- Interpolation of `location?.trim()` into the Funda location
template (part_001 line 249): a `null` location short-circuits to
`undefined`, which renders as the text "undefined". -/
def fundaLocPart (loc : Option Str) : Str :=
  match loc with
  | some l => trimJS l
  | none => "undefined".toList

/-- The property record assembled by one iteration of the Funda loop
(part_001 lines 245-269). -/
def fundaElementRecord (nf ni : Nat) (rnd : ElemRand) (i : Nat) (e : ElementData) : Property :=
  let title := fundaTitleRaw i e
  let location := parariusLocationRaw e
  let price := fundaPriceVal e
  let rooms := parariusRoomsVal e
  let shot := fundaShot nf i e
  { id := fundaId ni i
    title := jsOrDefault (title.map trimJS) ("Funda Property ".toList ++ natStr (i + 1))
    price := price
    location := "Groningen ".toList ++ fundaLocPart location
    size := jsOrDefault ((parariusSizeRaw e).map trimJS) "50m²".toList
    rooms := rooms
    source := "Funda".toList
    sourceUrl := resolveUrl "https://www.funda.nl".toList (parariusUrlRaw e)
    listedDays := rnd.days4.val
    image := shot
    images := if shot = [] then [] else [shot]
    description := jsToStr title ++ " in ".toList ++ jsToStr location
      ++ ". Quality listing from Funda.".toList
    type := propertyType rooms
    available := "Available now".toList
    realEstateAgent := "Funda Partner".toList
    neighborhood := jsOrDefault (location.map trimJS) "Centrum".toList
    buildYear := natStr (1950 + rnd.year70.val)
    interior := pick3 "Furnished".toList "Upholstered".toList "Shell".toList rnd.interior3
    fullDescription := "Quality property in ".toList ++ jsToStr location
      ++ ". Professional listing with full details.".toList
    features := ["Kitchen".toList, "Bathroom".toList, "Internet".toList]
    energyLabel := pick3 "A".toList "B".toList "C".toList rnd.energy3
    deposit := if price > 0 then price * 2 else 1000
    screenshotPath := shot }

/-- One iteration of the Pararius element loop: `none` when the
per-element `catch` fires (nothing is appended), else the assembled
record. -/
def parariusStep (env : PageEnv) (i : Nat) (e : ElementData) : Option Property :=
  if e.procError then none
  else some (parariusElementRecord (env.nowFile i) (env.nowId i) (env.rand i) i e)

/-- One iteration of the Funda element loop. -/
def fundaStep (env : PageEnv) (i : Nat) (e : ElementData) : Option Property :=
  if e.procError then none
  else some (fundaElementRecord (env.nowFile i) (env.nowId i) (env.rand i) i e)

/-- The `properties` list accumulated by the Pararius loop (part_001
line 78): indices `0 ≤ i < min(elements.length, 20)`, skipping elements
whose processing throws. -/
def parariusRecords (env : PageEnv) : List Property :=
  (env.elements.take 20).enum.filterMap (fun ie => parariusStep env ie.1 ie.2)

/-- The `properties` list accumulated by the Funda loop (part_001
line 201): cap 15. -/
def fundaRecords (env : PageEnv) : List Property :=
  (env.elements.take 15).enum.filterMap (fun ie => fundaStep env ie.1 ie.2)

/-- Operation `scrapeParariusWithScreenshots` (part_001 lines 43-170):
ensure the browser is open, open a page (whose failure propagates as an
error), and either return the accumulated records, or — when navigation
or the listing-selector wait throws — catch at the outer scope and
return the empty list.  The browser session stays open on every path
(only the page is closed, in the `finally`). -/
def scrapePararius (st : BrowserState) (env : PageEnv) :
    Except Unit (List Property) × BrowserState :=
  let st1 := initBrowser st
  if env.newPageOk then
    (if env.navOk then Except.ok (parariusRecords env) else Except.ok [], st1)
  else (Except.error (), st1)

/-- Operation `scrapeFundaWithScreenshots` (part_001 lines 172-288). -/
def scrapeFunda (st : BrowserState) (env : PageEnv) :
    Except Unit (List Property) × BrowserState :=
  let st1 := initBrowser st
  if env.newPageOk then
    (if env.navOk then Except.ok (fundaRecords env) else Except.ok [], st1)
  else (Except.error (), st1)

/-- The JS comparator `(a, b) => a.listedDays - b.listedDays` sorts
ascending by `listedDays`. -/
def daysLE (a b : Property) : Prop := a.listedDays ≤ b.listedDays

instance : DecidableRel daysLE := fun a b => Nat.decLe a.listedDays b.listedDays

instance : IsTotal Property daysLE := ⟨fun a b => Nat.le_total a.listedDays b.listedDays⟩

instance : IsTrans Property daysLE := ⟨fun _ _ _ => Nat.le_trans⟩

/-- `allProperties.sort((a, b) => a.listedDays - b.listedDays)`
(part_001 line 306), modelled by a stable sort with respect to
`daysLE`. -/
def sortByListedDays (l : List Property) : List Property := l.insertionSort daysLE

/-- Operation `scrapeAllWithScreenshots` (part_001 lines 290-314):
ensure the browser is open, scrape Pararius then Funda with the shared
session, concatenate, sort by `listedDays`; the `finally` closes the
browser on the normal path and on every error path. -/
def scrapeAll (st : BrowserState) (envP envF : PageEnv) :
    Except Unit (List Property) × BrowserState :=
  let st1 := initBrowser st
  match scrapePararius st1 envP with
  | (Except.error e, st2) => (Except.error e, closeBrowser st2)
  | (Except.ok ps, st2) =>
    match scrapeFunda st2 envF with
    | (Except.error e, st3) => (Except.error e, closeBrowser st3)
    | (Except.ok fs, st3) =>
      (Except.ok (sortByListedDays (ps ++ fs)), closeBrowser st3)

/-- Decoding counterpart of `natToRev`: the value of a little-endian
digit string. -/
def revVal (l : Str) : Nat := l.foldr (fun c acc => acc * 10 + digitVal c) 0

/-- Fixed random draws, for concrete evaluations. -/
def rnd0 : ElemRand := ⟨0, 0, 0, 0, 0⟩

/-- A listing element none of whose sub-element selectors match. -/
def elemNoTitle : ElementData :=
  { title := none, price := none, location := none, size := none, rooms := none,
    link := none, image := false, screenshotOk := false, procError := false }

/-- A listing element whose rooms text reads "0". -/
def elemRooms0 : ElementData := { elemNoTitle with rooms := some (some "0".toList) }

/-- A listing element with an image whose screenshot capture fails. -/
def elemShotFail : ElementData := { elemNoTitle with image := true, screenshotOk := false }

/-- A page environment that finds no listing elements. -/
def env0 : PageEnv :=
  { newPageOk := true, navOk := true, elements := [],
    nowFile := fun _ => 0, nowId := fun _ => 0, rand := fun _ => rnd0 }

/-- A page environment whose navigation (or listing-selector wait)
throws. -/
def envNavFail : PageEnv :=
  { newPageOk := true, navOk := false, elements := [elemNoTitle],
    nowFile := fun _ => 0, nowId := fun _ => 0, rand := fun _ => rnd0 }

theorem digitVal_digitChar : ∀ d : Nat, d < 10 → digitVal (digitChar d) = d := by decide

theorem isDigitCh_digitChar : ∀ d : Nat, d < 10 → isDigitCh (digitChar d) = true := by decide

theorem revVal_natToRev : ∀ fuel n : Nat, n ≤ fuel → revVal (natToRev fuel n) = n := by
  intro fuel
  induction fuel with
  | zero =>
    intro n h
    interval_cases n
    rfl
  | succ f ih =>
    intro n h
    by_cases h0 : n = 0
    · subst h0; rfl
    · have hlt : n / 10 < n := Nat.div_lt_self (Nat.pos_of_ne_zero h0) (by omega)
      have hle : n / 10 ≤ f := by omega
      have hstep : natToRev (f + 1) n = digitChar (n % 10) :: natToRev f (n / 10) := by
        simp [natToRev, h0]
      rw [hstep]
      show revVal (natToRev f (n / 10)) * 10 + digitVal (digitChar (n % 10)) = n
      rw [ih (n / 10) hle, digitVal_digitChar (n % 10) (Nat.mod_lt n (by omega))]
      omega

theorem natStr_inj {m n : Nat} (h : natStr m = natStr n) : m = n := by
  have key : ∀ k : Nat, revVal (natStr k).reverse = k := by
    intro k
    by_cases hk : k = 0
    · subst hk; rfl
    · have hk2 : natStr k = (natToRev (k + 1) k).reverse := by simp [natStr, hk]
      rw [hk2, List.reverse_reverse, revVal_natToRev (k + 1) k (Nat.le_succ k)]
  have h2 := congrArg (fun l => revVal l.reverse) h
  simpa [key] using h2

theorem natToRev_chars : ∀ (fuel n : Nat) (c : Char), c ∈ natToRev fuel n → isDigitCh c = true := by
  intro fuel
  induction fuel with
  | zero => intro n c hc; simp [natToRev] at hc
  | succ f ih =>
    intro n c hc
    by_cases h0 : n = 0
    · subst h0; simp [natToRev] at hc
    · simp only [natToRev, if_neg h0, List.mem_cons] at hc
      rcases hc with rfl | hc
      · exact isDigitCh_digitChar (n % 10) (Nat.mod_lt n (by omega))
      · exact ih (n / 10) c hc

theorem natStr_chars {n : Nat} {c : Char} (h : c ∈ natStr n) : isDigitCh c = true := by
  unfold natStr at h
  by_cases h0 : n = 0
  · simp [h0] at h; subst h; rfl
  · simp only [if_neg h0, List.mem_reverse] at h
    exact natToRev_chars (n + 1) n c h

theorem natStr_ne_nil (n : Nat) : natStr n ≠ [] := by
  unfold natStr
  by_cases h0 : n = 0
  · simp [h0]
  · simp only [if_neg h0, ne_eq, List.reverse_eq_nil_iff]
    simp [natToRev, h0]

theorem natStr_no_dash (n : Nat) : '-' ∉ natStr n := by
  intro h
  have h2 := natStr_chars h
  exact absurd h2 (by decide)

theorem append_cons_inj {c : Char} :
    ∀ (a1 b1 a2 b2 : Str), c ∉ a1 → c ∉ a2 →
      a1 ++ c :: b1 = a2 ++ c :: b2 → a1 = a2 ∧ b1 = b2 := by
  intro a1
  induction a1 with
  | nil =>
    intro b1 a2 b2 _ h2 h
    cases a2 with
    | nil => simpa using h
    | cons y ys =>
      rw [List.nil_append, List.cons_append] at h
      injection h with ha _
      subst ha
      exact absurd (List.mem_cons_self _ _) h2
  | cons x xs ih =>
    intro b1 a2 b2 h1 h2 h
    cases a2 with
    | nil =>
      rw [List.cons_append, List.nil_append] at h
      injection h with ha _
      subst ha
      exact absurd (List.mem_cons_self _ _) h1
    | cons y ys =>
      rw [List.cons_append, List.cons_append] at h
      injection h with ha hb
      subst ha
      have h1' : c ∉ xs := fun hx => h1 (List.mem_cons_of_mem _ hx)
      have h2' : c ∉ ys := fun hx => h2 (List.mem_cons_of_mem _ hx)
      obtain ⟨e1, e2⟩ := ih b1 ys b2 h1' h2' hb
      exact ⟨by rw [e1], e2⟩

theorem parariusId_inj {t1 i1 t2 i2 : Nat} (h : parariusId t1 i1 = parariusId t2 i2) :
    t1 = t2 ∧ i1 = i2 := by
  unfold parariusId at h
  rw [List.append_assoc, List.append_assoc] at h
  have h2 := List.append_cancel_left h
  obtain ⟨e1, e2⟩ :=
    append_cons_inj (natStr t1) (natStr i1) (natStr t2) (natStr i2)
      (natStr_no_dash t1) (natStr_no_dash t2) h2
  exact ⟨natStr_inj e1, natStr_inj e2⟩

theorem fundaId_inj {t1 i1 t2 i2 : Nat} (h : fundaId t1 i1 = fundaId t2 i2) :
    t1 = t2 ∧ i1 = i2 := by
  unfold fundaId at h
  rw [List.append_assoc, List.append_assoc] at h
  have h2 := List.append_cancel_left h
  obtain ⟨e1, e2⟩ :=
    append_cons_inj (natStr t1) (natStr i1) (natStr t2) (natStr i2)
      (natStr_no_dash t1) (natStr_no_dash t2) h2
  exact ⟨natStr_inj e1, natStr_inj e2⟩

theorem parariusId_head (t i : Nat) : (parariusId t i).head? = some 'p' := rfl

theorem fundaId_head (t i : Nat) : (fundaId t i).head? = some 'f' := rfl

theorem ne_nil_of_head {l : Str} {c : Char} (h : l.head? = some c) : l ≠ [] := by
  intro hl
  rw [hl] at h
  exact Option.noConfusion h

theorem parariusId_ne_nil (t i : Nat) : parariusId t i ≠ [] :=
  ne_nil_of_head (parariusId_head t i)

theorem fundaId_ne_nil (t i : Nat) : fundaId t i ≠ [] :=
  ne_nil_of_head (fundaId_head t i)

theorem parariusId_ne_fundaId (t1 i1 t2 i2 : Nat) : parariusId t1 i1 ≠ fundaId t2 i2 := by
  intro h
  have h2 : (some 'p' : Option Char) = some 'f' := by
    rw [← parariusId_head t1 i1, h, fundaId_head]
  exact absurd h2 (by decide)

theorem dropWhile_eq_self_of_head {p : Char → Bool} {l : Str}
    (h : ∀ c, l.head? = some c → p c = false) : l.dropWhile p = l := by
  cases l with
  | nil => rfl
  | cons x xs =>
    rw [List.dropWhile_cons, h x rfl]
    simp

theorem dropTrailingWS_eq_self {l : Str} (h : ∀ c, l.getLast? = some c → isWS c = false) :
    dropTrailingWS l = l := by
  unfold dropTrailingWS
  rw [dropWhile_eq_self_of_head, List.reverse_reverse]
  intro c hc
  exact h c (by rwa [List.head?_reverse] at hc)

theorem trimJS_eq_self {l : Str} (hh : ∀ c, l.head? = some c → isWS c = false)
    (hl : ∀ c, l.getLast? = some c → isWS c = false) : trimJS l = l := by
  unfold trimJS
  rw [dropWhile_eq_self_of_head hh, dropTrailingWS_eq_self hl]

theorem not_ws_of_digit {c : Char} (h : isDigitCh c = true) : isWS c = false := by
  simp only [isDigitCh, Bool.or_eq_true, decide_eq_true_eq] at h
  rcases h with (((((((((h | h) | h) | h) | h) | h) | h) | h) | h) | h) <;> subst h <;> rfl

theorem trimJS_append_natStr {w : Str} {c : Char} (hw : w.head? = some c)
    (hc : isWS c = false) (n : Nat) : trimJS (w ++ natStr n) = w ++ natStr n := by
  apply trimJS_eq_self
  · intro d hd
    rw [List.head?_append, hw] at hd
    simp only [Option.or_some] at hd
    injection hd with hd
    subst hd
    exact hc
  · intro d hd
    rw [List.getLast?_append,
      List.getLast?_eq_getLast (natStr n) (natStr_ne_nil n)] at hd
    simp only [Option.or_some] at hd
    injection hd with hd
    subst hd
    exact not_ws_of_digit (natStr_chars (List.getLast_mem (natStr_ne_nil n)))

theorem takeWhile_digits_nil {l : Str} (h : ∀ c ∈ l, isDigitCh c = false) :
    l.takeWhile isDigitCh = [] := by
  cases l with
  | nil => rfl
  | cons x xs =>
    rw [List.takeWhile_cons, h x (List.mem_cons_self x xs)]
    simp

theorem matchDigitsSep_none {sep : Char} {u : Str} (h : ∀ c ∈ u, isDigitCh c = false) :
    matchDigitsSep sep u = none := by
  unfold matchDigitsSep
  simp [takeWhile_digits_nil h]

theorem parariusCapture_none {s : Str} (h : ∀ c ∈ s, isDigitCh c = false) :
    parariusCapture s = none := by
  induction s with
  | nil => rfl
  | cons c cs ih =>
    have hcs : ∀ x ∈ cs, isDigitCh x = false := fun x hx => h x (List.mem_cons_of_mem _ hx)
    by_cases hc : c = '€' <;>
      simp only [parariusCapture, if_pos, if_neg, hc, reduceIte,
        matchDigitsSep_none hcs, matchDigitsSep_none h, ih hcs]

theorem fundaCapture_none {s : Str} (h : ∀ c ∈ s, isDigitCh c = false) :
    fundaCapture s = none := by
  induction s with
  | nil => rfl
  | cons c cs ih =>
    have hcs : ∀ x ∈ cs, isDigitCh x = false := fun x hx => h x (List.mem_cons_of_mem _ hx)
    have hd1 : ∀ x ∈ cs.dropWhile isWS, isDigitCh x = false :=
      fun x hx => hcs x ((List.dropWhile_sublist isWS).subset hx)
    have hd2 : ∀ x ∈ (c :: cs).dropWhile isWS, isDigitCh x = false :=
      fun x hx => h x ((List.dropWhile_sublist isWS).subset hx)
    by_cases hc : c = '€' <;>
      simp only [fundaCapture, if_pos, if_neg, hc, reduceIte,
        matchDigitsSep_none hd1, matchDigitsSep_none hd2, ih hcs]

theorem parariusParsePrice_no_digits {s : Str} (h : ∀ c ∈ s, isDigitCh c = false) :
    parariusParsePrice s = 0 := by
  unfold parariusParsePrice
  rw [parariusCapture_none h]

theorem fundaParsePrice_no_digits {s : Str} (h : ∀ c ∈ s, isDigitCh c = false) :
    fundaParsePrice s = 0 := by
  unfold fundaParsePrice
  rw [fundaCapture_none h]

theorem enum_pairwise_fst {α : Type} (l : List α) :
    l.enum.Pairwise (fun a b => a.1 < b.1) := by
  have h : (l.enum.map Prod.fst).Pairwise (· < ·) := by
    rw [List.enum_map_fst]
    exact List.pairwise_lt_range _
  exact List.pairwise_map.mp h

theorem parariusStep_eq_some {env : PageEnv} {i : Nat} {e : ElementData} {p : Property}
    (h : parariusStep env i e = some p) :
    p = parariusElementRecord (env.nowFile i) (env.nowId i) (env.rand i) i e := by
  unfold parariusStep at h
  by_cases hp : e.procError
  · simp [hp] at h
  · simp [hp] at h
    exact h.symm

theorem fundaStep_eq_some {env : PageEnv} {i : Nat} {e : ElementData} {p : Property}
    (h : fundaStep env i e = some p) :
    p = fundaElementRecord (env.nowFile i) (env.nowId i) (env.rand i) i e := by
  unfold fundaStep at h
  by_cases hp : e.procError
  · simp [hp] at h
  · simp [hp] at h
    exact h.symm

theorem parariusStep_id {env : PageEnv} {i : Nat} {e : ElementData} {p : Property}
    (h : parariusStep env i e = some p) : p.id = parariusId (env.nowId i) i := by
  rw [parariusStep_eq_some h]
  rfl

theorem fundaStep_id {env : PageEnv} {i : Nat} {e : ElementData} {p : Property}
    (h : fundaStep env i e = some p) : p.id = fundaId (env.nowId i) i := by
  rw [fundaStep_eq_some h]
  rfl

theorem parariusRecords_pairwise_id (env : PageEnv) :
    (parariusRecords env).Pairwise (fun a b => a.id ≠ b.id) := by
  unfold parariusRecords
  refine List.Pairwise.filterMap _ ?_
    ((enum_pairwise_fst (env.elements.take 20)).sublist (List.Sublist.refl _))
  intro a a' hlt b hb b' hb'
  rw [Option.mem_def] at hb hb'
  rw [parariusStep_id hb, parariusStep_id hb']
  intro hid
  obtain ⟨-, e2⟩ := parariusId_inj hid
  omega

theorem fundaRecords_pairwise_id (env : PageEnv) :
    (fundaRecords env).Pairwise (fun a b => a.id ≠ b.id) := by
  unfold fundaRecords
  refine List.Pairwise.filterMap _ ?_
    ((enum_pairwise_fst (env.elements.take 15)).sublist (List.Sublist.refl _))
  intro a a' hlt b hb b' hb'
  rw [Option.mem_def] at hb hb'
  rw [fundaStep_id hb, fundaStep_id hb']
  intro hid
  obtain ⟨-, e2⟩ := fundaId_inj hid
  omega

theorem mem_parariusRecords_id {env : PageEnv} {p : Property} (h : p ∈ parariusRecords env) :
    ∃ t i : Nat, p.id = parariusId t i := by
  unfold parariusRecords at h
  rw [List.mem_filterMap] at h
  obtain ⟨ie, -, hstep⟩ := h
  exact ⟨env.nowId ie.1, ie.1, parariusStep_id hstep⟩

theorem mem_fundaRecords_id {env : PageEnv} {p : Property} (h : p ∈ fundaRecords env) :
    ∃ t i : Nat, p.id = fundaId t i := by
  unfold fundaRecords at h
  rw [List.mem_filterMap] at h
  obtain ⟨ie, -, hstep⟩ := h
  exact ⟨env.nowId ie.1, ie.1, fundaStep_id hstep⟩

theorem combinedRecords_good (envP envF : PageEnv) (A B : List Property)
    (hA : A = [] ∨ A = parariusRecords envP) (hB : B = [] ∨ B = fundaRecords envF) :
    (sortByListedDays (A ++ B)).Pairwise (fun a b => a.id ≠ b.id) ∧
    ∀ p ∈ sortByListedDays (A ++ B), p.id ≠ [] := by
  have hperm : List.Perm (sortByListedDays (A ++ B)) (A ++ B) :=
    List.perm_insertionSort daysLE (A ++ B)
  have hsym : ∀ {x y : Property}, x.id ≠ y.id → y.id ≠ x.id := fun h e => h e.symm
  have hApw : A.Pairwise (fun a b => a.id ≠ b.id) := by
    rcases hA with rfl | rfl
    · exact List.Pairwise.nil
    · exact parariusRecords_pairwise_id envP
  have hBpw : B.Pairwise (fun a b => a.id ≠ b.id) := by
    rcases hB with rfl | rfl
    · exact List.Pairwise.nil
    · exact fundaRecords_pairwise_id envF
  have hAmem : ∀ p ∈ A, ∃ t i : Nat, p.id = parariusId t i := by
    rcases hA with rfl | rfl
    · intro p hp; exact absurd hp (List.not_mem_nil p)
    · intro p hp; exact mem_parariusRecords_id hp
  have hBmem : ∀ p ∈ B, ∃ t i : Nat, p.id = fundaId t i := by
    rcases hB with rfl | rfl
    · intro p hp; exact absurd hp (List.not_mem_nil p)
    · intro p hp; exact mem_fundaRecords_id hp
  constructor
  · refine (List.Perm.pairwise_iff hsym hperm).2 ?_
    rw [List.pairwise_append]
    refine ⟨hApw, hBpw, ?_⟩
    intro a ha b hb
    obtain ⟨t1, i1, e1⟩ := hAmem a ha
    obtain ⟨t2, i2, e2⟩ := hBmem b hb
    rw [e1, e2]
    exact parariusId_ne_fundaId t1 i1 t2 i2
  · intro p hp
    have hp2 : p ∈ A ++ B := hperm.mem_iff.1 hp
    rcases List.mem_append.1 hp2 with hpa | hpb
    · obtain ⟨t, i, e⟩ := hAmem p hpa
      rw [e]
      exact parariusId_ne_nil t i
    · obtain ⟨t, i, e⟩ := hBmem p hpb
      rw [e]
      exact fundaId_ne_nil t i

theorem scrapeAll_ok_shape {st : BrowserState} {envP envF : PageEnv} {ps : List Property}
    (h : (scrapeAll st envP envF).1 = Except.ok ps) :
    ∃ A B, ps = sortByListedDays (A ++ B) ∧
      (A = [] ∨ A = parariusRecords envP) ∧ (B = [] ∨ B = fundaRecords envF) := by
  by_cases h1 : envP.newPageOk
  · by_cases h2 : envF.newPageOk
    · by_cases h3 : envP.navOk <;> by_cases h4 : envF.navOk
      · simp [scrapeAll, scrapePararius, scrapeFunda, initBrowser, h1, h2, h3, h4] at h
        exact ⟨_, _, h.symm, Or.inr rfl, Or.inr rfl⟩
      · simp [scrapeAll, scrapePararius, scrapeFunda, initBrowser, h1, h2, h3, h4] at h
        exact ⟨parariusRecords envP, [], by rw [← h, List.append_nil], Or.inr rfl, Or.inl rfl⟩
      · simp [scrapeAll, scrapePararius, scrapeFunda, initBrowser, h1, h2, h3, h4] at h
        exact ⟨[], fundaRecords envF, by rw [← h, List.nil_append], Or.inl rfl, Or.inr rfl⟩
      · simp [scrapeAll, scrapePararius, scrapeFunda, initBrowser, h1, h2, h3, h4] at h
        exact ⟨[], [], by rw [← h, List.append_nil], Or.inl rfl, Or.inl rfl⟩
    · by_cases h3 : envP.navOk <;>
        simp [scrapeAll, scrapePararius, scrapeFunda, initBrowser, h1, h2, h3] at h
  · simp [scrapeAll, scrapePararius, initBrowser, h1] at h

/-- C3: within one scraping run, across both sources, all produced
record ids are pairwise distinct and non-empty. -/
theorem run_ids_unique_and_nonempty (st : BrowserState) (envP envF : PageEnv)
    (ps : List Property) (h : (scrapeAll st envP envF).1 = Except.ok ps) :
    ps.Pairwise (fun a b => a.id ≠ b.id) ∧ ∀ p ∈ ps, p.id ≠ [] := by
  obtain ⟨A, B, rfl, hA, hB⟩ := scrapeAll_ok_shape h
  exact combinedRecords_good envP envF A B hA hB

theorem run_ids_unique_witness :
    (([] : List Property).Pairwise (fun a b => a.id ≠ b.id) ∧
      ∀ p ∈ ([] : List Property), p.id ≠ []) :=
  run_ids_unique_and_nonempty ⟨false⟩ env0 env0 [] rfl

/-- C4: the list returned by a successful `scrapeAll` run is sorted
non-decreasing by `listedDays`. -/
theorem scrapeAll_sorted_by_listedDays (st : BrowserState) (envP envF : PageEnv)
    (ps : List Property) (h : (scrapeAll st envP envF).1 = Except.ok ps) :
    ps.Pairwise (fun a b => a.listedDays ≤ b.listedDays) := by
  obtain ⟨A, B, rfl, -, -⟩ := scrapeAll_ok_shape h
  exact List.sorted_insertionSort daysLE (A ++ B)

theorem scrapeAll_sorted_witness :
    ([] : List Property).Pairwise (fun a b => a.listedDays ≤ b.listedDays) :=
  scrapeAll_sorted_by_listedDays ⟨false⟩ env0 env0 [] rfl

/-- C6: when navigation (or the listing-selector wait) throws for a
source, that source's scrape returns the empty list instead of
propagating, and the browser session is still open afterwards. -/
theorem nav_failure_empty_and_browser_open (st : BrowserState) (env : PageEnv)
    (hpage : env.newPageOk = true) (hnav : env.navOk = false) :
    scrapePararius st env = (Except.ok [], { browser := true }) ∧
    scrapeFunda st env = (Except.ok [], { browser := true }) := by
  simp [scrapePararius, scrapeFunda, initBrowser, hpage, hnav]

theorem nav_failure_witness :
    scrapePararius ⟨true⟩ envNavFail = (Except.ok [], { browser := true }) ∧
    scrapeFunda ⟨true⟩ envNavFail = (Except.ok [], { browser := true }) :=
  nav_failure_empty_and_browser_open ⟨true⟩ envNavFail rfl rfl

/-- C8: every run of `scrapeAll`, normal or erroring, leaves the
browser session closed, and `closeBrowser` is idempotent (a second call
is a no-op on an absent session). -/
theorem scrapeAll_closes_browser :
    (∀ (st : BrowserState) (envP envF : PageEnv),
      ((scrapeAll st envP envF).2).browser = false) ∧
    (∀ s : BrowserState, closeBrowser (closeBrowser s) = closeBrowser s) := by
  constructor
  · intro st envP envF
    by_cases h1 : envP.newPageOk <;> by_cases h2 : envP.navOk <;>
      by_cases h3 : envF.newPageOk <;> by_cases h4 : envF.navOk <;>
      simp [scrapeAll, scrapePararius, scrapeFunda, initBrowser, closeBrowser, h1, h2, h3, h4]
  · intro s
    rfl

/-- C9: a per-source scrape never returns more records than the
configured cap: 20 for Pararius, 15 for Funda. -/
theorem scrape_caps :
    (∀ (st : BrowserState) (env : PageEnv) (ps : List Property),
      (scrapePararius st env).1 = Except.ok ps → ps.length ≤ 20) ∧
    (∀ (st : BrowserState) (env : PageEnv) (ps : List Property),
      (scrapeFunda st env).1 = Except.ok ps → ps.length ≤ 15) := by
  have hP : ∀ env : PageEnv, (parariusRecords env).length ≤ 20 := by
    intro env
    unfold parariusRecords
    calc ((env.elements.take 20).enum.filterMap
          (fun ie => parariusStep env ie.1 ie.2)).length
        ≤ (env.elements.take 20).enum.length := List.length_filterMap_le _ _
      _ = (env.elements.take 20).length := List.enum_length
      _ ≤ 20 := List.length_take_le _ _
  have hF : ∀ env : PageEnv, (fundaRecords env).length ≤ 15 := by
    intro env
    unfold fundaRecords
    calc ((env.elements.take 15).enum.filterMap
          (fun ie => fundaStep env ie.1 ie.2)).length
        ≤ (env.elements.take 15).enum.length := List.length_filterMap_le _ _
      _ = (env.elements.take 15).length := List.enum_length
      _ ≤ 15 := List.length_take_le _ _
  constructor
  · intro st env ps h
    by_cases h1 : env.newPageOk
    · by_cases h2 : env.navOk
      · simp [scrapePararius, initBrowser, h1, h2] at h
        rw [← h]
        exact hP env
      · simp [scrapePararius, initBrowser, h1, h2] at h
        simp [h]
    · simp [scrapePararius, initBrowser, h1] at h
  · intro st env ps h
    by_cases h1 : env.newPageOk
    · by_cases h2 : env.navOk
      · simp [scrapeFunda, initBrowser, h1, h2] at h
        rw [← h]
        exact hF env
      · simp [scrapeFunda, initBrowser, h1, h2] at h
        simp [h]
    · simp [scrapeFunda, initBrowser, h1] at h

theorem scrape_caps_witness :
    ([] : List Property).length ≤ 20 ∧ ([] : List Property).length ≤ 15 :=
  ⟨scrape_caps.1 ⟨false⟩ env0 [] rfl, scrape_caps.2 ⟨false⟩ env0 [] rfl⟩

/-- C7: when an element's screenshot capture fails, no exception
escapes the per-element step: the record is still produced, its `image`
is the empty string and `images` the empty list, and the remaining
fields (title, price, rooms, location) are still extracted exactly as on
the success path. -/
theorem screenshot_failure_record_kept (env : PageEnv) (i : Nat) (e : ElementData)
    (himg : e.image = true) (hfail : e.screenshotOk = false) (hok : e.procError = false) :
    (∃ r, parariusStep env i e = some r ∧ r.image = [] ∧ r.images = ([] : List Str) ∧
      r.title = jsOrDefault ((parariusTitleRaw i e).map trimJS)
        ("Pararius Property ".toList ++ natStr (i + 1)) ∧
      r.price = parariusPriceVal e ∧ r.rooms = parariusRoomsVal e ∧
      r.location = jsOrDefault ((parariusLocationRaw e).map trimJS) "Groningen".toList) ∧
    (∃ r, fundaStep env i e = some r ∧ r.image = [] ∧ r.images = ([] : List Str) ∧
      r.title = jsOrDefault ((fundaTitleRaw i e).map trimJS)
        ("Funda Property ".toList ++ natStr (i + 1)) ∧
      r.price = fundaPriceVal e ∧ r.rooms = parariusRoomsVal e) := by
  have hshotP : parariusShot (env.nowFile i) i e = [] := by
    simp [parariusShot, hfail]
  have hshotF : fundaShot (env.nowFile i) i e = [] := by
    simp [fundaShot, hfail]
  constructor
  · refine ⟨parariusElementRecord (env.nowFile i) (env.nowId i) (env.rand i) i e,
      ?_, ?_, ?_, rfl, rfl, rfl, rfl⟩
    · simp [parariusStep, hok]
    · exact hshotP
    · show (if parariusShot (env.nowFile i) i e = [] then ([] : List Str)
        else [parariusShot (env.nowFile i) i e]) = []
      rw [if_pos hshotP]
  · refine ⟨fundaElementRecord (env.nowFile i) (env.nowId i) (env.rand i) i e,
      ?_, ?_, ?_, rfl, rfl, rfl⟩
    · simp [fundaStep, hok]
    · exact hshotF
    · show (if fundaShot (env.nowFile i) i e = [] then ([] : List Str)
        else [fundaShot (env.nowFile i) i e]) = []
      rw [if_pos hshotF]

theorem screenshot_failure_witness :
    (∃ r, parariusStep env0 0 elemShotFail = some r ∧ r.image = [] ∧
      r.images = ([] : List Str) ∧
      r.title = jsOrDefault ((parariusTitleRaw 0 elemShotFail).map trimJS)
        ("Pararius Property ".toList ++ natStr 1) ∧
      r.price = parariusPriceVal elemShotFail ∧ r.rooms = parariusRoomsVal elemShotFail ∧
      r.location = jsOrDefault ((parariusLocationRaw elemShotFail).map trimJS)
        "Groningen".toList) ∧
    (∃ r, fundaStep env0 0 elemShotFail = some r ∧ r.image = [] ∧
      r.images = ([] : List Str) ∧
      r.title = jsOrDefault ((fundaTitleRaw 0 elemShotFail).map trimJS)
        ("Funda Property ".toList ++ natStr 1) ∧
      r.price = fundaPriceVal elemShotFail ∧ r.rooms = parariusRoomsVal elemShotFail) :=
  screenshot_failure_record_kept env0 0 elemShotFail rfl rfl rfl

/-- C10: every produced record's deposit is twice the price when the
price is positive, 1000 when the price is zero, and positive either
way. -/
theorem deposit_rule (nf ni : Nat) (rnd : ElemRand) (i : Nat) (e : ElementData) :
    ((0 < (parariusElementRecord nf ni rnd i e).price →
        (parariusElementRecord nf ni rnd i e).deposit =
          (parariusElementRecord nf ni rnd i e).price * 2) ∧
      ((parariusElementRecord nf ni rnd i e).price = 0 →
        (parariusElementRecord nf ni rnd i e).deposit = 1000) ∧
      0 < (parariusElementRecord nf ni rnd i e).deposit) ∧
    ((0 < (fundaElementRecord nf ni rnd i e).price →
        (fundaElementRecord nf ni rnd i e).deposit =
          (fundaElementRecord nf ni rnd i e).price * 2) ∧
      ((fundaElementRecord nf ni rnd i e).price = 0 →
        (fundaElementRecord nf ni rnd i e).deposit = 1000) ∧
      0 < (fundaElementRecord nf ni rnd i e).deposit) := by
  have key : ∀ p : Nat,
      (0 < p → (if p > 0 then p * 2 else 1000) = p * 2) ∧
      (p = 0 → (if p > 0 then p * 2 else 1000) = 1000) ∧
      0 < (if p > 0 then p * 2 else 1000) := by
    intro p
    rcases Nat.eq_zero_or_pos p with hp | hp
    · subst hp
      exact ⟨fun h => absurd h (by omega), fun _ => rfl, by norm_num⟩
    · rw [if_pos hp]
      exact ⟨fun _ => rfl, fun h0 => absurd h0 (by omega), by omega⟩
  exact ⟨key (parariusPriceVal e), key (fundaPriceVal e)⟩

theorem deposit_rule_witness :
    (parariusElementRecord 0 0 rnd0 0 elemNoTitle).deposit = 1000 ∧
    (fundaElementRecord 0 0 rnd0 0 elemNoTitle).deposit = 1000 :=
  ⟨(deposit_rule 0 0 rnd0 0 elemNoTitle).1.2.1 (by decide),
   (deposit_rule 0 0 rnd0 0 elemNoTitle).2.2.1 (by decide)⟩

theorem propertyType_cases (n : Nat) :
    (propertyType n = "Studio".toList ↔ n = 1) ∧
    (propertyType n = "Apartment".toList ↔ (n = 0 ∨ n = 2)) ∧
    (propertyType n = "House".toList ↔ 2 < n) := by
  by_cases h1 : n = 1
  · subst h1
    decide
  · by_cases h2 : n ≤ 2
    · have : n = 0 ∨ n = 2 := by omega
      rcases this with rfl | rfl <;> decide
    · rw [propertyType, if_neg h1, if_neg h2]
      refine ⟨⟨fun hs => absurd hs (by decide), fun h => absurd h h1⟩,
        ⟨fun ha => absurd ha (by decide), fun h => by omega⟩,
        ⟨fun _ => by omega, fun _ => rfl⟩⟩

/-- C5 (amended): for every produced record, `type` is "Studio" exactly
when rooms = 1, "Apartment" exactly when rooms ∈ {0, 2}, and "House"
exactly when rooms > 2; in particular rooms = 2 yields "Apartment" and
rooms = 3 yields "House". -/
theorem propertyType_of_rooms (nf ni : Nat) (rnd : ElemRand) (i : Nat) (e : ElementData) :
    (((parariusElementRecord nf ni rnd i e).type = "Studio".toList ↔
        (parariusElementRecord nf ni rnd i e).rooms = 1) ∧
      ((parariusElementRecord nf ni rnd i e).type = "Apartment".toList ↔
        ((parariusElementRecord nf ni rnd i e).rooms = 0 ∨
          (parariusElementRecord nf ni rnd i e).rooms = 2)) ∧
      ((parariusElementRecord nf ni rnd i e).type = "House".toList ↔
        2 < (parariusElementRecord nf ni rnd i e).rooms)) ∧
    (((fundaElementRecord nf ni rnd i e).type = "Studio".toList ↔
        (fundaElementRecord nf ni rnd i e).rooms = 1) ∧
      ((fundaElementRecord nf ni rnd i e).type = "Apartment".toList ↔
        ((fundaElementRecord nf ni rnd i e).rooms = 0 ∨
          (fundaElementRecord nf ni rnd i e).rooms = 2)) ∧
      ((fundaElementRecord nf ni rnd i e).type = "House".toList ↔
        2 < (fundaElementRecord nf ni rnd i e).rooms)) :=
  ⟨propertyType_cases (parariusRoomsVal e), propertyType_cases (parariusRoomsVal e)⟩

/-- C5 counterexample: a listing whose rooms text reads "0" produces a
record with rooms = 0 and type "Apartment", refuting that the type is
"Apartment" exactly when rooms = 2. -/
theorem propertyType_rooms_zero_cex :
    (parariusElementRecord 0 0 rnd0 0 elemRooms0).type = "Apartment".toList ∧
    (parariusElementRecord 0 0 rnd0 0 elemRooms0).rooms = 0 ∧ (0 : Nat) ≠ 2 := by
  refine ⟨rfl, rfl, by decide⟩

/-- C1 (amended): when an element's title selector matches nothing, the
Funda record's title is "Funda Property {i+1}", but the Pararius
record's title is "Property {i+1}" — without the source prefix, since
the Pararius loop's raw-title default (line 92) omits it and is
non-empty, so the "Pararius Property {i+1}" fallback of line 127 is
never reached in this case. -/
theorem titleDefault_when_selector_missing (nf ni : Nat) (rnd : ElemRand) (i : Nat)
    (e : ElementData) (h : e.title = none) :
    (parariusElementRecord nf ni rnd i e).title = "Property ".toList ++ natStr (i + 1) ∧
    (fundaElementRecord nf ni rnd i e).title = "Funda Property ".toList ++ natStr (i + 1) := by
  have hp : trimJS ("Property ".toList ++ natStr (i + 1)) =
      "Property ".toList ++ natStr (i + 1) :=
    trimJS_append_natStr (w := "Property ".toList) (c := 'P') rfl rfl (i + 1)
  have hf : trimJS ("Funda Property ".toList ++ natStr (i + 1)) =
      "Funda Property ".toList ++ natStr (i + 1) :=
    trimJS_append_natStr (w := "Funda Property ".toList) (c := 'F') rfl rfl (i + 1)
  have hpne : ("Property ".toList ++ natStr (i + 1) : Str) ≠ [] :=
    ne_nil_of_head (c := 'P') rfl
  have hfne : ("Funda Property ".toList ++ natStr (i + 1) : Str) ≠ [] :=
    ne_nil_of_head (c := 'F') rfl
  constructor
  · show jsOrDefault ((parariusTitleRaw i e).map trimJS)
      ("Pararius Property ".toList ++ natStr (i + 1)) = _
    rw [parariusTitleRaw, h]
    show jsOrDefault (some (trimJS ("Property ".toList ++ natStr (i + 1)))) _ = _
    rw [hp, jsOrDefault, if_neg hpne]
  · show jsOrDefault ((fundaTitleRaw i e).map trimJS)
      ("Funda Property ".toList ++ natStr (i + 1)) = _
    rw [fundaTitleRaw, h]
    show jsOrDefault (some (trimJS ("Funda Property ".toList ++ natStr (i + 1)))) _ = _
    rw [hf, jsOrDefault, if_neg hfne]

/-- C1 counterexample: at index 0 with no title element, the Pararius
record's title is "Property 1", not the documented
"Pararius Property 1". -/
theorem titleDefault_pararius_cex :
    (parariusElementRecord 0 0 rnd0 0 elemNoTitle).title = "Property 1".toList ∧
    "Property 1".toList ≠ "Pararius Property 1".toList := by
  exact ⟨by decide, by decide⟩

theorem titleDefault_witness :
    (parariusElementRecord 0 0 rnd0 0 elemNoTitle).title =
      "Property ".toList ++ natStr 1 ∧
    (fundaElementRecord 0 0 rnd0 0 elemNoTitle).title =
      "Funda Property ".toList ++ natStr 1 :=
  titleDefault_when_selector_missing 0 0 rnd0 0 elemNoTitle rfl

/-- C2 (amended): the Pararius price step parses "€1,250" to 1250; the
Funda price step parses "€1,250" to 1 (its regex accepts a dot, not a
comma, as thousands separator: "€1.250" parses to 1250); in both steps
any text containing no digits parses to 0. -/
theorem priceParsing_characterization :
    parariusParsePrice "€1,250".toList = 1250 ∧
    fundaParsePrice "€1,250".toList = 1 ∧
    fundaParsePrice "€1.250".toList = 1250 ∧
    ∀ s : Str, (∀ c ∈ s, isDigitCh c = false) →
      parariusParsePrice s = 0 ∧ fundaParsePrice s = 0 := by
  refine ⟨by decide, by decide, by decide, ?_⟩
  intro s h
  exact ⟨parariusParsePrice_no_digits h, fundaParsePrice_no_digits h⟩

/-- C2 counterexample: the Funda price step parses "€1,250" to 1, not
1250. -/
theorem priceParsing_funda_comma_cex :
    fundaParsePrice "€1,250".toList = 1 ∧ (1 : Nat) ≠ 1250 := by
  exact ⟨by decide, by decide⟩

theorem priceParsing_witness :
    parariusParsePrice "no price".toList = 0 ∧ fundaParsePrice "no price".toList = 0 :=
  priceParsing_characterization.2.2.2 "no price".toList (by decide)
